import Mathlib

/-!
Shallow embedding of the RBAC + JWT authentication flow of the NestJs-app
repository (code in `src/README.md` and `src/src/`): data model (`User`,
`Role`), `UsersService` (createUser, addRole, ban), `AuthService`
(registration, generateToken), `JwtAuthGuard` and `RolesGuard`, and the
`CreateUserDto` validation declarations.
-/

namespace NestApp

/-- `roles.model.ts`: `Role` with unique `id`, unique symbolic `value`
(e.g. "USER", "ADMIN") and a `description`. -/
structure Role where
  id : Nat
  value : String
  description : String
deriving Repr, DecidableEq

/-- `users.model.ts`: `User` with unique `id`, unique `email`, hashed
`password`, `banned` (column default `false`), nullable `banReason`
(`allowNull: true`), and the many-to-many `roles` association
(`@BelongsToMany(Role, UserRoles)`). -/
structure User where
  id : Nat
  email : String
  password : String
  banned : Bool
  banReason : Option String
  roles : List Role
deriving Repr, DecidableEq

/-- A decoded token claims payload as the guards consume it —
`user.roles.some(role => ...)` reads a present `roles` array:
`{email, id, roles}`. -/
structure TokenPayload where
  email : String
  id : Nat
  roles : List Role
deriving Repr, DecidableEq

/-- The claims payload `AuthService.generateToken` signs:
`{email: user.email, id: user.id, roles: user.roles}` built from the
sequelize instance, whose `roles` property may be `undefined` (`none`).
`jwtService.sign` JSON-serializes the payload and serialization drops
keys whose value is `undefined`, so `roles = none` means the decoded
token carries no roles claim at all. -/
structure IssuedClaims where
  email : String
  id : Nat
  roles : Option (List Role)
deriving Repr, DecidableEq

/-- A signed token. Signing/decoding by `JwtService` is external
infrastructure; the token is modelled as its decoded claims payload. -/
structure SignedToken where
  payload : IssuedClaims
deriving Repr, DecidableEq

/-- A sequelize `User` instance as held in memory: the raw attributes,
plus the `roles` association property, which is populated only by eager
loading — an instance fresh from `userRepository.create(dto)` has
`roles` `undefined` (`none`), and `$set` does not change that. -/
structure UserInstance where
  id : Nat
  email : String
  password : String
  banned : Bool
  banReason : Option String
  roles : Option (List Role)
deriving Repr, DecidableEq

/-- A NestJS `HttpException` value: response message and HTTP status. -/
structure HttpException where
  message : String
  status : Nat
deriving Repr, DecidableEq

/-- A JavaScript exception as observable inside a guard's `try`/`catch`:
a `TypeError` (e.g. calling `.split` on `undefined`), a thrown
`HttpException`/`UnauthorizedException`, or an error thrown by
`jwtService.verify` (bad signature, malformed, expired). -/
inductive JsException where
  | typeError : JsException
  | http : HttpException → JsException
  | jwt : String → JsException
deriving Repr, DecidableEq

/-- `dto/create-user-dto.ts`: `CreateUserDto {email, password}`. -/
structure CreateUserDto where
  email : String
  password : String
deriving Repr, DecidableEq

/-- `dto/add-role.dto.ts` (consumed by `UsersService.addRole`):
`{userId: number, value: string}`. -/
structure AddRoleDto where
  userId : Nat
  value : String
deriving Repr, DecidableEq

/-- `dto/ban-user.dto.ts` (consumed by `UsersService.ban`):
`{userId: number, banReason: string}`. -/
structure BanUserDto where
  userId : Nat
  banReason : String
deriving Repr, DecidableEq

/-! ## Guards

Both guards read `req.headers.authorization` and run
`const [bearer, token] = authHeader.split(' ')`, then check
`bearer !== 'Bearer' || !token`. An absent header is `undefined`, on which
`.split` throws a `TypeError`; a missing second component is `undefined`
and an empty one is `""`, both falsy. Token verification is a parameter
`verify : String → Except String TokenPayload` (external `JwtService`). -/

/-- JavaScript `String.prototype.split` with a one-character separator,
on the character list: every separator occurrence cuts, so leading,
trailing and doubled separators yield empty components, and the empty
string yields `[""]`. -/
def jsSplitChars (sep : Char) : List Char → List (List Char)
  | [] => [[]]
  | c :: rest =>
    let r := jsSplitChars sep rest
    if c = sep then [] :: r
    else (c :: r.headD []) :: r.tail

/-- JavaScript `s.split(sep)` for a one-character separator. -/
def jsSplit (sep : Char) (s : String) : List String :=
  (jsSplitChars sep s.data).map fun cs => ⟨cs⟩

/-- The two header-extraction lines shared verbatim by `JwtAuthGuard` and
`RolesGuard`: split the header on spaces, succeed with the token exactly
when the first component is `"Bearer"` and the second component exists
and is non-empty (JavaScript truthiness of `token`: both `undefined` and
`""` are falsy, modelled as `""`). -/
def extractBearerToken (authHeader : String) : Option String :=
  let parts := jsSplit ' ' authHeader
  let bearer := parts.headD ""
  let token := parts.getD 1 ""
  if bearer = "Bearer" ∧ token ≠ "" then some token else none

/-- Result of `JwtAuthGuard.canActivate`: either the request proceeds with
the decoded claims attached as `req.user`, or an exception reaches the
framework. -/
inductive AuthGuardResult where
  | allow : TokenPayload → AuthGuardResult
  | err : HttpException → AuthGuardResult
deriving Repr, DecidableEq

/-- The `try` block of `JwtAuthGuard.canActivate`: read the header (absent
header makes `.split` throw `TypeError`), check the bearer prefix and
token (else throw `UnauthorizedException({message: 'User not authed'})`),
verify the token, attach the claims. -/
def jwtAuthGuardTry (header : Option String)
    (verify : String → Except String TokenPayload) :
    Except JsException TokenPayload :=
  match header with
  | none => .error .typeError
  | some h =>
    match extractBearerToken h with
    | none => .error (.http ⟨"User not authed", 401⟩)
    | some token =>
      match verify token with
      | .error m => .error (.jwt m)
      | .ok user => .ok user

/-- `JwtAuthGuard.canActivate`: the `try` block wrapped in the `catch`
that rethrows every exception as
`UnauthorizedException({message: 'User not authed'})` (HTTP 401). -/
def jwtAuthGuard (header : Option String)
    (verify : String → Except String TokenPayload) : AuthGuardResult :=
  match jwtAuthGuardTry header verify with
  | .ok user => .allow user
  | .error _ => .err ⟨"User not authed", 401⟩

/-- Result of `RolesGuard.canActivate`: the request proceeds, or an
exception reaches the framework (either thrown by the guard, or the
`ForbiddenException` NestJS raises when `canActivate` returns `false`). -/
inductive RolesGuardResult where
  | allow : RolesGuardResult
  | err : HttpException → RolesGuardResult
deriving Repr, DecidableEq

/-- The `try` block of `RolesGuard.canActivate`: read the `ROLES_KEY`
metadata (`requiredRoles`, `undefined` when never declared — modelled as
`Option`); when falsy return `true`; otherwise extract and verify the
token as in `JwtAuthGuard`, then return
`user.roles.some(role => requiredRoles.includes(role.value))`. -/
def rolesGuardTry (requiredRoles : Option (List String))
    (header : Option String)
    (verify : String → Except String TokenPayload) :
    Except JsException Bool :=
  match requiredRoles with
  | none => .ok true
  | some required =>
    match header with
    | none => .error .typeError
    | some h =>
      match extractBearerToken h with
      | none => .error (.http ⟨"User not authed", 401⟩)
      | some token =>
        match verify token with
        | .error m => .error (.jwt m)
        | .ok user => .ok (user.roles.any fun role => required.contains role.value)

/-- `RolesGuard.canActivate`: the `try` block wrapped in the `catch` that
rethrows every exception as
`HttpException('User has no access', HttpStatus.FORBIDDEN)` (403); a
`false` return value makes NestJS raise its default `ForbiddenException`
("Forbidden resource", 403). -/
def rolesGuard (requiredRoles : Option (List String))
    (header : Option String)
    (verify : String → Except String TokenPayload) : RolesGuardResult :=
  match rolesGuardTry requiredRoles header verify with
  | .ok true => .allow
  | .ok false => .err ⟨"Forbidden resource", 403⟩
  | .error _ => .err ⟨"User has no access", 403⟩

/-! ## Persistent store and services

The sequelize repositories are external infrastructure; the store is
modelled as the lists of rows they hold, with auto-increment ids. -/

/-- The persistent store behind the sequelize repositories: the `users`
and `roles` tables and the auto-increment counter for user ids. -/
structure Db where
  users : List User
  roles : List Role
  nextUserId : Nat
deriving Repr, DecidableEq

/-- `UsersService.getUserByEmail`: `findOne({where: {email}})`. -/
def getUserByEmail (db : Db) (email : String) : Option User :=
  db.users.find? fun u => u.email = email

/-- `RolesService.getRoleByValue`: `findOne({where: {value}})`. -/
def getRoleByValue (db : Db) (value : String) : Option Role :=
  db.roles.find? fun r => r.value = value

/-- `userRepository.findByPk(id)`. -/
def findByPk (db : Db) (id : Nat) : Option User :=
  db.users.find? fun u => u.id = id

/-- The row `userRepository.create(dto)` inserts: fresh auto-increment
id, the dto's fields, column defaults `banned = false`, `banReason`
null, no role associations yet. -/
def freshUser (db : Db) (dto : CreateUserDto) : User :=
  { id := db.nextUserId
    email := dto.email
    password := dto.password
    banned := false
    banReason := none
    roles := [] }

/-- Replace user `id`'s roles association, as `user.$set('roles', [roleId])`
writes it through the `UserRoles` join table. -/
def setUserRoles (db : Db) (id : Nat) (roles : List Role) : Db :=
  { db with users := db.users.map fun u => if u.id = id then { u with roles := roles } else u }

/-- Modelled from external bcrypt: `bcrypt.hash(password, 5)`. The digest
content is irrelevant to the claims; only that a digest is stored. -/
def bcryptHash (password : String) : String :=
  "$2a$05$" ++ password

/-- `UsersService.createUser`: insert the row via `userRepository.create`,
then look up the seed role `"USER"`; when the lookup returns null the
next line `role.id` throws a `TypeError` (the row stays inserted);
otherwise `user.$set('roles', [role.id])` writes the association through
the `UserRoles` join table and the instance is returned. `$set` only
writes the join table: the returned instance's `roles` property stays
`undefined` because `create()` (without `include`) never loads the
association. Returns the outcome together with the resulting store. -/
def createUser (db : Db) (dto : CreateUserDto) : Except JsException UserInstance × Db :=
  let user := freshUser db dto
  let db1 : Db := { db with users := db.users ++ [user], nextUserId := db.nextUserId + 1 }
  match getRoleByValue db1 "USER" with
  | none => (.error .typeError, db1)
  | some role =>
    (.ok { id := user.id, email := user.email, password := user.password,
           banned := user.banned, banReason := user.banReason, roles := none },
     setUserRoles db1 user.id [role])

/-- `AuthService.generateToken`: sign the payload
`{email: user.email, id: user.id, roles: user.roles}` from the in-memory
instance. -/
def generateToken (user : UserInstance) : SignedToken :=
  ⟨{ email := user.email, id := user.id, roles := user.roles }⟩

/-- `AuthService.registration`: look up a candidate by the submitted
email; if found throw `HttpException('User with such email already
exists', HttpStatus.BAD_REQUEST)`; else hash the password, create the
user, and return the generated token. The `TypeError` from a failed seed
role lookup propagates uncaught. -/
def registration (db : Db) (dto : CreateUserDto) : Except JsException SignedToken × Db :=
  match getUserByEmail db dto.email with
  | some _ => (.error (.http ⟨"User with such email already exists", 400⟩), db)
  | none =>
    let hashPassword := bcryptHash dto.password
    match createUser db { dto with password := hashPassword } with
    | (.error e, db1) => (.error e, db1)
    | (.ok user, db1) => (.ok (generateToken user), db1)

/-- `UsersService.addRole`: find the user by primary key and the role by
value; if both exist (`if(role && user)`) attach the role through the
join table with `user.$add('role', role.id)` and return the dto, else
throw `HttpException('Users or role not found', HttpStatus.NOT_FOUND)`.
The join pair is unique, so an already-present association is kept. -/
def addRole (db : Db) (dto : AddRoleDto) : Except JsException AddRoleDto × Db :=
  let user := findByPk db dto.userId
  let role := getRoleByValue db dto.value
  match role, user with
  | some r, some u =>
    (.ok dto, setUserRoles db u.id (if r ∈ u.roles then u.roles else u.roles ++ [r]))
  | _, _ => (.error (.http ⟨"Users or role not found", 404⟩), db)

/-- `UsersService.ban`: find the user by primary key; if absent throw
`HttpException(..., HttpStatus.NOT_FOUND)`; else set `banned = true` and
`banReason = dto.banReason` and `save()` the row. -/
def ban (db : Db) (dto : BanUserDto) : Except JsException User × Db :=
  match findByPk db dto.userId with
  | none => (.error (.http ⟨"Пользователь не найден", 404⟩), db)
  | some user =>
    let banned := { user with banned := true, banReason := some dto.banReason }
    (.ok banned,
     { db with users := db.users.map fun u => if u.id = dto.userId then banned else u })

/-- The in-scope store-mutating operations, for stating store
invariants. -/
inductive Op where
  | register : CreateUserDto → Op
  | create : CreateUserDto → Op
  | assignRole : AddRoleDto → Op
  | banUser : BanUserDto → Op
deriving Repr, DecidableEq

/-- The store an operation leaves behind. -/
def applyOp (db : Db) : Op → Db
  | .register dto => (registration db dto).2
  | .create dto => (createUser db dto).2
  | .assignRole dto => (addRole db dto).2
  | .banUser dto => (ban db dto).2

/-- Data-model invariant from the spec: `banReason` is set only when
`banned` is true. -/
def banInvariant (u : User) : Prop :=
  u.banReason.isSome → u.banned = true

instance (u : User) : Decidable (banInvariant u) := by
  unfold banInvariant; infer_instance

/-! ## Input validation

`CreateUserDto` declares `@IsEmail` on `email` and `@IsString` +
`@Length(4, 16)` on `password`. The `ValidationPipe` that enforces these
before a handler runs is referenced by `main.ts` and the controller but
its file is absent from `src/`. -/

/-- Modelled from external class-validator: the `@IsEmail` format check,
simplified to its contract — a non-empty local part, one `@`, and a
domain containing a dot, with no spaces. -/
def isEmailFormat (email : String) : Bool :=
  match jsSplit '@' email with
  | [localPart, domain] =>
    localPart ≠ "" && (jsSplit '.' domain).length ≥ 2
      && (jsSplit '.' domain).all (fun part => part ≠ "")
      && !email.data.contains ' '
  | _ => false

/-- The validators declared on `CreateUserDto`: `email` must pass
`@IsEmail`, `password` must have `@Length(4, 16)` (in characters). The
`@IsString` checks hold by typing in this embedding. -/
def validateCreateUser (dto : CreateUserDto) : Bool :=
  isEmailFormat dto.email && decide (4 ≤ dto.password.length)
    && decide (dto.password.length ≤ 16)

/-- Modelled from the spec: the repository's `ValidationPipe`
(`src/pipes/validation.pipe.ts`, absent from `src/`) validates the body
dto against its declared validators and rejects with a client error
(HTTP 400) before the handler runs, so the registration flow is entered
only on valid input. -/
def registrationEndpoint (db : Db) (dto : CreateUserDto) :
    Except JsException SignedToken × Db :=
  if validateCreateUser dto then registration db dto
  else (.error (.http ⟨"Validation failed", 400⟩), db)

/-! ## Theorems -/

/-- When the first space-separated component of the header is not
`"Bearer"`, extraction fails. -/
theorem extractBearerToken_eq_none_of_scheme (h : String)
    (hs : (jsSplit ' ' h).headD "" ≠ "Bearer") : extractBearerToken h = none := by
  unfold extractBearerToken
  simp only [ite_eq_right_iff]
  intro hc
  exact absurd hc.1 hs

/-- When no non-empty token follows the scheme component, extraction
fails. -/
theorem extractBearerToken_eq_none_of_token (h : String)
    (ht : (jsSplit ' ' h).getD 1 "" = "") : extractBearerToken h = none := by
  unfold extractBearerToken
  simp only [ite_eq_right_iff]
  intro hc
  exact absurd ht hc.2

/-- C3: `JwtAuthGuard` rejects when the Authorization header is absent,
when the scheme prefix is not `"Bearer"`, when no token string follows,
and when verification fails; every rejection is the same
`UnauthorizedException` `{message: 'User not authed'}` (401), and every
outcome is either that rejection or an allow. -/
theorem jwtAuthGuard_uniform_rejection
    (verify : String → Except String TokenPayload) :
    jwtAuthGuard none verify = .err ⟨"User not authed", 401⟩ ∧
    (∀ h, (jsSplit ' ' h).headD "" ≠ "Bearer" →
      jwtAuthGuard (some h) verify = .err ⟨"User not authed", 401⟩) ∧
    (∀ h, (jsSplit ' ' h).getD 1 "" = "" →
      jwtAuthGuard (some h) verify = .err ⟨"User not authed", 401⟩) ∧
    (∀ h t m, extractBearerToken h = some t → verify t = .error m →
      jwtAuthGuard (some h) verify = .err ⟨"User not authed", 401⟩) ∧
    (∀ header, (∃ u, jwtAuthGuard header verify = .allow u) ∨
      jwtAuthGuard header verify = .err ⟨"User not authed", 401⟩) := by
  refine ⟨rfl, ?_, ?_, ?_, ?_⟩
  · intro h hs
    simp [jwtAuthGuard, jwtAuthGuardTry, extractBearerToken_eq_none_of_scheme h hs]
  · intro h ht
    simp [jwtAuthGuard, jwtAuthGuardTry, extractBearerToken_eq_none_of_token h ht]
  · intro h t m hx hv
    simp [jwtAuthGuard, jwtAuthGuardTry, hx, hv]
  · intro header
    unfold jwtAuthGuard
    match jwtAuthGuardTry header verify with
    | .ok u => exact Or.inl ⟨u, rfl⟩
    | .error e => exact Or.inr rfl

/-- C3 witness: a request with header `Authorization: Basic xyz` and an
always-failing verifier is rejected with the generic signal. -/
theorem jwtAuthGuard_uniform_rejection_witness :
    jwtAuthGuard (some "Basic xyz") (fun _ => .error "invalid signature") =
      .err ⟨"User not authed", 401⟩ :=
  (jwtAuthGuard_uniform_rejection (fun _ => .error "invalid signature")).2.1
    "Basic xyz" (by decide)

/-- C2: with no declared role metadata the role guard allows
unconditionally; with declared roles, given a header carrying a token
that verifies to some claims, the guard allows the request iff the
claims' role values intersect the required set (logical OR). -/
theorem rolesGuard_required_intersection (required : List String)
    (h t : String) (claims : TokenPayload)
    (verify : String → Except String TokenPayload)
    (hTok : extractBearerToken h = some t)
    (hVerify : verify t = .ok claims) :
    (∀ header v, rolesGuard none header v = .allow) ∧
    (rolesGuard (some required) (some h) verify = .allow ↔
      ∃ role ∈ claims.roles, role.value ∈ required) := by
  constructor
  · intro header v; rfl
  · simp only [rolesGuard, rolesGuardTry, hTok, hVerify]
    constructor
    · intro hAllow
      rcases hAny : claims.roles.any fun role => required.contains role.value with _ | _
      · rw [hAny] at hAllow; exact absurd hAllow (by simp)
      · rcases List.any_eq_true.mp hAny with ⟨role, hmem, hval⟩
        exact ⟨role, hmem, List.mem_of_elem_eq_true hval⟩
    · intro ⟨role, hmem, hval⟩
      have hAny : (claims.roles.any fun role => required.contains role.value) = true :=
        List.any_eq_true.mpr ⟨role, hmem, List.elem_eq_true_of_mem hval⟩
      rw [hAny]

/-- C2 witness: requiring `ADMIN`, a token with roles `[USER]` is not
allowed and a token with roles `[USER, ADMIN]` is allowed. -/
theorem rolesGuard_required_intersection_witness :
    ¬ (rolesGuard (some ["ADMIN"]) (some "Bearer tok")
        (fun _ => .ok ⟨"a@x.com", 1, [⟨1, "USER", "User role"⟩]⟩) = .allow) ∧
    rolesGuard (some ["ADMIN"]) (some "Bearer tok2")
      (fun _ => .ok ⟨"a@x.com", 1, [⟨1, "USER", "User role"⟩, ⟨2, "ADMIN", "Admin"⟩]⟩) =
        .allow := by
  constructor
  · intro hAllow
    have h := (rolesGuard_required_intersection ["ADMIN"] "Bearer tok" "tok"
      ⟨"a@x.com", 1, [⟨1, "USER", "User role"⟩]⟩
      (fun _ => .ok ⟨"a@x.com", 1, [⟨1, "USER", "User role"⟩]⟩)
      (by decide) rfl).2.mp hAllow
    revert h; decide
  · exact (rolesGuard_required_intersection ["ADMIN"] "Bearer tok2" "tok2"
      ⟨"a@x.com", 1, [⟨1, "USER", "User role"⟩, ⟨2, "ADMIN", "Admin"⟩]⟩
      (fun _ => .ok ⟨"a@x.com", 1, [⟨1, "USER", "User role"⟩, ⟨2, "ADMIN", "Admin"⟩]⟩)
      (by decide) rfl).2.mpr ⟨⟨2, "ADMIN", "Admin"⟩, by decide, by decide⟩

/-- C5: when roles are declared, every exception the `try` block of
`RolesGuard` raises — missing header, wrong scheme, invalid token, any
exception at all — is caught and mapped to
`HttpException('User has no access', 403)`, not to the 401
"not authenticated" signal and not propagated raw. -/
theorem rolesGuard_exception_forbidden (required : List String)
    (header : Option String) (verify : String → Except String TokenPayload)
    (e : JsException)
    (h : rolesGuardTry (some required) header verify = .error e) :
    rolesGuard (some required) header verify = .err ⟨"User has no access", 403⟩ := by
  unfold rolesGuard
  rw [h]

/-- C5 witness: with required roles `[ADMIN]` and a missing header, the
`try` block throws a `TypeError` and the guard reports 403 forbidden. -/
theorem rolesGuard_exception_forbidden_witness :
    rolesGuard (some ["ADMIN"]) none (fun _ => .error "no token") =
      .err ⟨"User has no access", 403⟩ :=
  rolesGuard_exception_forbidden ["ADMIN"] none (fun _ => .error "no token")
    .typeError rfl

/-- C9: metadata present but empty denies every request with a 403
forbidden signal (an empty required set intersects nothing, and failures
before the check are also 403); the unconditional allow happens only when
the metadata is entirely absent. -/
theorem rolesGuard_empty_required_denies (header : Option String)
    (verify : String → Except String TokenPayload) :
    (∃ ex, rolesGuard (some []) header verify = .err ex ∧ ex.status = 403) ∧
    rolesGuard none header verify = .allow := by
  refine ⟨?_, rfl⟩
  cases header with
  | none => exact ⟨⟨"User has no access", 403⟩, rfl, rfl⟩
  | some h =>
    cases hx : extractBearerToken h with
    | none =>
      exact ⟨⟨"User has no access", 403⟩, by simp [rolesGuard, rolesGuardTry, hx], rfl⟩
    | some t =>
      cases hv : verify t with
      | error m =>
        exact ⟨⟨"User has no access", 403⟩, by simp [rolesGuard, rolesGuardTry, hx, hv], rfl⟩
      | ok claims =>
        refine ⟨⟨"Forbidden resource", 403⟩, ?_, rfl⟩
        have hAny : (claims.roles.any fun _ => false) = false := by simp
        simp [rolesGuard, rolesGuardTry, hx, hv, hAny]

/-- `createUser` when the seed role exists: the row is inserted and the
role attached in the store, but the returned instance's `roles` property
is `undefined`. -/
theorem createUser_ok (db : Db) (dto : CreateUserDto) (r : Role)
    (hRole : getRoleByValue db "USER" = some r) :
    createUser db dto = (.ok
      { id := db.nextUserId, email := dto.email, password := dto.password,
        banned := false, banReason := none, roles := none },
      setUserRoles
        { db with users := db.users ++ [freshUser db dto], nextUserId := db.nextUserId + 1 }
        db.nextUserId [r]) := by
  have h1 : getRoleByValue
      { db with users := db.users ++ [freshUser db dto], nextUserId := db.nextUserId + 1 }
      "USER" = some r := hRole
  simp only [createUser, h1]
  rfl

/-- `createUser` when the seed role `"USER"` is missing: `role.id` throws
a `TypeError`, with the row already inserted. -/
theorem createUser_missing_role (db : Db) (dto : CreateUserDto)
    (hRole : getRoleByValue db "USER" = none) :
    createUser db dto = (.error .typeError,
      { db with users := db.users ++ [freshUser db dto], nextUserId := db.nextUserId + 1 }) := by
  have h1 : getRoleByValue
      { db with users := db.users ++ [freshUser db dto], nextUserId := db.nextUserId + 1 }
      "USER" = none := hRole
  simp only [createUser, h1]

/-- C1: refuted — a code bug. At the spec's own example input, a
registration with an unused email on a store seeded with the USER role
issues a token whose decoded claims carry the new id and the submitted
email but NO roles claim: the instance `createUser` returns has `roles`
`undefined` (`$set` only writes the join table) and serialization drops
the key. The store row itself does receive the USER role, so only the
issued payload diverges from the spec's
`{id, email, roles: [the attached role]}`. -/
theorem registration_token_roles_absent :
    (registration ⟨[], [⟨1, "USER", "User role"⟩], 1⟩ ⟨"a@x.com", "pass1"⟩).1 =
      .ok ⟨{ email := "a@x.com", id := 1, roles := none }⟩ ∧
    (registration ⟨[], [⟨1, "USER", "User role"⟩], 1⟩ ⟨"a@x.com", "pass1"⟩).2.users =
      [⟨1, "a@x.com", bcryptHash "pass1", false, none, [⟨1, "USER", "User role"⟩]⟩] := by
  constructor
  · rfl
  · rfl

/-- C4: a registration whose email already belongs to a user fails with
the duplicate-user client error (HTTP 400) and returns the store
untouched — no row is written. -/
theorem registration_duplicate_rejected (db : Db) (dto : CreateUserDto) (u : User)
    (h : getUserByEmail db dto.email = some u) :
    registration db dto =
      (.error (.http ⟨"User with such email already exists", 400⟩), db) := by
  simp only [registration, h]

/-- C4 witness: a second registration with the already-used email
`"a@x.com"` fails and leaves the store unchanged. -/
theorem registration_duplicate_rejected_witness :
    registration ⟨[⟨1, "a@x.com", "$2a$05$pass1", false, none, [⟨1, "USER", "User role"⟩]⟩],
        [⟨1, "USER", "User role"⟩], 2⟩ ⟨"a@x.com", "other1"⟩ =
      (.error (.http ⟨"User with such email already exists", 400⟩),
        ⟨[⟨1, "a@x.com", "$2a$05$pass1", false, none, [⟨1, "USER", "User role"⟩]⟩],
          [⟨1, "USER", "User role"⟩], 2⟩) :=
  registration_duplicate_rejected
    ⟨[⟨1, "a@x.com", "$2a$05$pass1", false, none, [⟨1, "USER", "User role"⟩]⟩],
      [⟨1, "USER", "User role"⟩], 2⟩ ⟨"a@x.com", "other1"⟩
    ⟨1, "a@x.com", "$2a$05$pass1", false, none, [⟨1, "USER", "User role"⟩]⟩ (by decide)

/-- C6: when the email is unused but the seed role `"USER"` is absent,
registration fails with the uncaught `TypeError` (a fatal server error),
yet the freshly created user row remains in the store with no role — the
creation is not rolled back. -/
theorem registration_orphan_on_missing_role (db : Db) (dto : CreateUserDto)
    (hEmail : getUserByEmail db dto.email = none)
    (hRole : getRoleByValue db "USER" = none) :
    (registration db dto).1 = .error .typeError ∧
    (registration db dto).2.users =
      db.users ++ [freshUser db { dto with password := bcryptHash dto.password }] ∧
    (freshUser db { dto with password := bcryptHash dto.password }).roles = [] ∧
    freshUser db { dto with password := bcryptHash dto.password } ∈
      (registration db dto).2.users := by
  have hc := createUser_missing_role db { dto with password := bcryptHash dto.password } hRole
  refine ⟨?_, ?_, rfl, ?_⟩
  · simp only [registration, hEmail, hc]
  · simp only [registration, hEmail, hc]
  · simp only [registration, hEmail, hc]
    exact List.mem_append.mpr (Or.inr (List.mem_singleton.mpr rfl))

/-- C6 witness: with no `"USER"` role seeded, registering a fresh email
fails fatally while the orphaned user row is present in the store. -/
theorem registration_orphan_on_missing_role_witness :
    (registration ⟨[], [], 1⟩ ⟨"a@x.com", "pass1"⟩).1 = .error .typeError ∧
    (registration ⟨[], [], 1⟩ ⟨"a@x.com", "pass1"⟩).2.users =
      [] ++ [freshUser ⟨[], [], 1⟩ { email := "a@x.com", password := bcryptHash "pass1" }] ∧
    (freshUser ⟨[], [], 1⟩ { email := "a@x.com", password := bcryptHash "pass1" }).roles = [] ∧
    freshUser ⟨[], [], 1⟩ { email := "a@x.com", password := bcryptHash "pass1" } ∈
      (registration ⟨[], [], 1⟩ ⟨"a@x.com", "pass1"⟩).2.users :=
  registration_orphan_on_missing_role ⟨[], [], 1⟩ ⟨"a@x.com", "pass1"⟩ rfl rfl

/-- Rewriting a user's roles association changes neither `banned` nor
`banReason`, so `setUserRoles` preserves the ban invariant. -/
theorem setUserRoles_ban_preserved (db : Db) (id : Nat) (rs : List Role)
    (h : ∀ u ∈ db.users, banInvariant u) :
    ∀ u ∈ (setUserRoles db id rs).users, banInvariant u := by
  intro u hu
  simp only [setUserRoles, List.mem_map] at hu
  rcases hu with ⟨v, hv, rfl⟩
  split
  · exact h v hv
  · exact h v hv

/-- A freshly inserted row (`banned = false`, `banReason` null) keeps the
ban invariant over the whole users table. -/
theorem append_fresh_ban_preserved (db : Db) (dto : CreateUserDto)
    (h : ∀ u ∈ db.users, banInvariant u) :
    ∀ u ∈ db.users ++ [freshUser db dto], banInvariant u := by
  intro u hu
  rcases List.mem_append.mp hu with h1 | h1
  · exact h u h1
  · have := List.mem_singleton.mp h1
    subst this
    intro hs
    simp [freshUser] at hs

/-- `createUser` preserves the ban invariant. -/
theorem createUser_ban_preserved (db : Db) (dto : CreateUserDto)
    (h : ∀ u ∈ db.users, banInvariant u) :
    ∀ u ∈ (createUser db dto).2.users, banInvariant u := by
  have hbase := append_fresh_ban_preserved db dto h
  cases hr : getRoleByValue
      { db with users := db.users ++ [freshUser db dto], nextUserId := db.nextUserId + 1 }
      "USER" with
  | none => simpa [createUser, hr] using hbase
  | some role =>
    simp only [createUser, hr]
    exact setUserRoles_ban_preserved _ _ _ hbase

/-- `registration` preserves the ban invariant. -/
theorem registration_ban_preserved (db : Db) (dto : CreateUserDto)
    (h : ∀ u ∈ db.users, banInvariant u) :
    ∀ u ∈ (registration db dto).2.users, banInvariant u := by
  cases he : getUserByEmail db dto.email with
  | some u => simpa [registration, he] using h
  | none =>
    have hc := createUser_ban_preserved db { dto with password := bcryptHash dto.password } h
    rcases hcu : createUser db { dto with password := bcryptHash dto.password } with ⟨res, db1⟩
    rw [hcu] at hc
    cases res with
    | error e => simpa [registration, he, hcu] using hc
    | ok user => simpa [registration, he, hcu] using hc

/-- `addRole` preserves the ban invariant. -/
theorem addRole_ban_preserved (db : Db) (dto : AddRoleDto)
    (h : ∀ u ∈ db.users, banInvariant u) :
    ∀ u ∈ (addRole db dto).2.users, banInvariant u := by
  cases hr : getRoleByValue db dto.value with
  | none =>
    cases hu : findByPk db dto.userId with
    | none => simpa [addRole, hr, hu] using h
    | some u => simpa [addRole, hr, hu] using h
  | some r =>
    cases hu : findByPk db dto.userId with
    | none => simpa [addRole, hr, hu] using h
    | some u =>
      simp only [addRole, hr, hu]
      exact setUserRoles_ban_preserved _ _ _ h

/-- `ban` preserves the ban invariant: the rewritten row has
`banned = true` together with its reason. -/
theorem ban_ban_preserved (db : Db) (dto : BanUserDto)
    (h : ∀ u ∈ db.users, banInvariant u) :
    ∀ u ∈ (ban db dto).2.users, banInvariant u := by
  cases hf : findByPk db dto.userId with
  | none => simpa [ban, hf] using h
  | some user =>
    intro u hu
    simp only [ban, hf, List.mem_map] at hu
    rcases hu with ⟨v, hv, rfl⟩
    split
    · intro _; rfl
    · exact h v hv

/-- C7: the invariant "`banReason` is non-null only when `banned` is
true" is preserved by every in-scope operation; creation produces
`banned = false` with no `banReason`, and `ban` sets `banned = true` and
the reason together. -/
theorem banReason_only_when_banned (db : Db) (op : Op)
    (h : ∀ u ∈ db.users, banInvariant u) :
    (∀ u ∈ (applyOp db op).users, banInvariant u) ∧
    (∀ dto, (freshUser db dto).banned = false ∧ (freshUser db dto).banReason = none) ∧
    (∀ dto u, (ban db dto).1 = .ok u →
      u.banned = true ∧ u.banReason = some dto.banReason) := by
  refine ⟨?_, fun dto => ⟨rfl, rfl⟩, ?_⟩
  · cases op with
    | register dto => exact registration_ban_preserved db dto h
    | create dto => exact createUser_ban_preserved db dto h
    | assignRole dto => exact addRole_ban_preserved db dto h
    | banUser dto => exact ban_ban_preserved db dto h
  · intro dto u hu
    cases hf : findByPk db dto.userId with
    | none => simp [ban, hf] at hu
    | some v =>
      simp only [ban, hf, Except.ok.injEq] at hu
      subst hu
      exact ⟨rfl, rfl⟩

/-- C7 witness: banning the seeded user preserves the invariant on every
row of the store, and the banned row carries both flag and reason. -/
theorem banReason_only_when_banned_witness :
    (∀ u ∈ (applyOp ⟨[⟨1, "a@x.com", "h", false, none, []⟩], [], 2⟩
        (.banUser ⟨1, "spam"⟩)).users, banInvariant u) ∧
    (∀ dto, (freshUser ⟨[⟨1, "a@x.com", "h", false, none, []⟩], [], 2⟩ dto).banned = false ∧
      (freshUser ⟨[⟨1, "a@x.com", "h", false, none, []⟩], [], 2⟩ dto).banReason = none) ∧
    (∀ dto u, (ban ⟨[⟨1, "a@x.com", "h", false, none, []⟩], [], 2⟩ dto).1 = .ok u →
      u.banned = true ∧ u.banReason = some dto.banReason) :=
  banReason_only_when_banned ⟨[⟨1, "a@x.com", "h", false, none, []⟩], [], 2⟩
    (.banUser ⟨1, "spam"⟩) (by decide)

/-- C8: role assignment fails with the 404 "Users or role not found"
error — leaving the store untouched, so no association is written — when
the user id or the role value is missing; when both exist it returns the
dto and the association is present on the user's row afterwards. -/
theorem addRole_not_found_or_assign (db : Db) (dto : AddRoleDto) :
    ((findByPk db dto.userId = none ∨ getRoleByValue db dto.value = none) →
      addRole db dto = (.error (.http ⟨"Users or role not found", 404⟩), db)) ∧
    (∀ u r, findByPk db dto.userId = some u → getRoleByValue db dto.value = some r →
      (addRole db dto).1 = .ok dto ∧
      ∃ u2 ∈ (addRole db dto).2.users, u2.id = dto.userId ∧ r ∈ u2.roles) := by
  constructor
  · intro hcase
    rcases hcase with h1 | h1
    · cases hr : getRoleByValue db dto.value with
      | none => simp [addRole, h1, hr]
      | some r => simp [addRole, h1, hr]
    · cases hu : findByPk db dto.userId with
      | none => simp [addRole, h1, hu]
      | some u => simp [addRole, h1, hu]
  · intro u r hu hr
    have hmem : u ∈ db.users := List.mem_of_find?_eq_some hu
    have hid : u.id = dto.userId := by
      have hp := List.find?_some hu
      simpa using hp
    refine ⟨by simp [addRole, hu, hr], ?_⟩
    refine ⟨{ u with roles := if r ∈ u.roles then u.roles else u.roles ++ [r] }, ?_, hid, ?_⟩
    · simp only [addRole, hu, hr, setUserRoles]
      exact List.mem_map.mpr ⟨u, hmem, by simp⟩
    · by_cases hin : r ∈ u.roles
      · simp only [if_pos hin]
        exact hin
      · simp [hin]

/-- C8 witness: assigning `ADMIN` to a missing user fails 404 with the
store unchanged, and assigning it to the seeded user writes the
association. -/
theorem addRole_not_found_or_assign_witness :
    addRole ⟨[⟨1, "a@x.com", "h", false, none, []⟩], [⟨2, "ADMIN", "Admin"⟩], 2⟩
        ⟨5, "ADMIN"⟩ =
      (.error (.http ⟨"Users or role not found", 404⟩),
        ⟨[⟨1, "a@x.com", "h", false, none, []⟩], [⟨2, "ADMIN", "Admin"⟩], 2⟩) ∧
    ((addRole ⟨[⟨1, "a@x.com", "h", false, none, []⟩], [⟨2, "ADMIN", "Admin"⟩], 2⟩
        ⟨1, "ADMIN"⟩).1 = .ok ⟨1, "ADMIN"⟩ ∧
      ∃ u2 ∈ (addRole ⟨[⟨1, "a@x.com", "h", false, none, []⟩], [⟨2, "ADMIN", "Admin"⟩], 2⟩
        ⟨1, "ADMIN"⟩).2.users, u2.id = 1 ∧ (⟨2, "ADMIN", "Admin"⟩ : Role) ∈ u2.roles) :=
  ⟨(addRole_not_found_or_assign
      ⟨[⟨1, "a@x.com", "h", false, none, []⟩], [⟨2, "ADMIN", "Admin"⟩], 2⟩ ⟨5, "ADMIN"⟩).1
      (Or.inl (by decide)),
   (addRole_not_found_or_assign
      ⟨[⟨1, "a@x.com", "h", false, none, []⟩], [⟨2, "ADMIN", "Admin"⟩], 2⟩ ⟨1, "ADMIN"⟩).2
      ⟨1, "a@x.com", "h", false, none, []⟩ ⟨2, "ADMIN", "Admin"⟩ (by decide) (by decide)⟩

/-- C10: an input accepted by the `CreateUserDto` validators has an
email in valid format and a password of length between 4 and 16; a
rejected input never reaches the registration flow — the endpoint
returns a 400 client error with the store unchanged, so no user row is
created for it. -/
theorem createUserDto_validation (db : Db) (dto : CreateUserDto) :
    (validateCreateUser dto = true →
      isEmailFormat dto.email = true ∧
      4 ≤ dto.password.length ∧ dto.password.length ≤ 16) ∧
    (validateCreateUser dto = false →
      registrationEndpoint db dto = (.error (.http ⟨"Validation failed", 400⟩), db)) := by
  constructor
  · intro h
    simp only [validateCreateUser, Bool.and_eq_true, decide_eq_true_eq] at h
    exact ⟨h.1.1, h.1.2, h.2⟩
  · intro h
    simp [registrationEndpoint, h]

/-- C10 witness: `{email: "a@x.com", password: "pass1"}` is accepted and
within bounds; `{email: "a@x.com", password: "abc"}` (length 3) is
rejected before registration, leaving the store unchanged. -/
theorem createUserDto_validation_witness :
    (isEmailFormat "a@x.com" = true ∧
      4 ≤ ("pass1" : String).length ∧ ("pass1" : String).length ≤ 16) ∧
    registrationEndpoint ⟨[], [⟨1, "USER", "User role"⟩], 1⟩ ⟨"a@x.com", "abc"⟩ =
      (.error (.http ⟨"Validation failed", 400⟩), ⟨[], [⟨1, "USER", "User role"⟩], 1⟩) :=
  ⟨(createUserDto_validation ⟨[], [⟨1, "USER", "User role"⟩], 1⟩
      ⟨"a@x.com", "pass1"⟩).1 (by decide),
   (createUserDto_validation ⟨[], [⟨1, "USER", "User role"⟩], 1⟩
      ⟨"a@x.com", "abc"⟩).2 (by decide)⟩

end NestApp
